import Mathlib

/-!
Verification of the hybrid-filtering and dataset-lifecycle layer of the oak
vector-search engine, as implemented in src/oak/src/dataset.rs, against its
natural-language specification. Rust types are shallowly embedded: `Vec<i32>`
becomes `List Int`, `Vec<u8>` entries of a bitmask become `List Nat`,
`Result<T, E>` becomes `Except E T`. The f32 distance payload of search
results is represented by an abstract integral stand-in, since none of the
properties verified here depend on floating-point arithmetic.
-/

namespace Oak

/-- Modelled from the spec: the `Bitmask` type lives in src/oak/src/bitmask.rs,
which is not part of the sources given; dataset.rs only reads its `map` field.
Per the spec (section 3) a Bitmask is "an ordered sequence of \x7b0,1\x7d"; the
entries are small integers (an ABI artifact), modelled as `Nat`. -/
structure Bitmask where
  map : List Nat
deriving Repr, DecidableEq

/-- The errors that can be returned from searching an OAK dataset
(enum `SearchableError` in dataset.rs). -/
inductive SearchableError where
  | DatasetIsNotIndexed
  | PredicateSerializationError
  | CppError (msg : String)
deriving Repr, DecidableEq

/-- Modelled from the spec: `cxx::Exception`, the foreign fault type raised
across the ANN-engine boundary; the conversion in dataset.rs observes it only
through `to_string()`, so it is modelled by its diagnostic message. -/
structure CxxException where
  message : String
deriving Repr, DecidableEq

/-- `impl From<cxx::Exception> for SearchableError` in dataset.rs: the foreign
exception is converted to `SearchableError::CppError(err.to_string())`. -/
def SearchableError.fromCxxException (err : CxxException) : SearchableError :=
  SearchableError.CppError err.message

/-- The errors that can be returned from constructing an OAK dataset
(enum `ConstructionError` in dataset.rs). The Rust enum declares no
variants, so the embedded type has no constructors. -/
inductive ConstructionError : Type

/-- `type SimilaritySearchResult = (usize, f32)`: index of the found vector
and its distance from the query (distance abstracted to `Int`). -/
abbrev SimilaritySearchResult : Type := Nat × Int

/-- `type TopKSearchResult = Vec<SimilaritySearchResult>`. -/
abbrev TopKSearchResult : Type := List SimilaritySearchResult

/-- `struct HybridSearchMetadata` in dataset.rs: the attributes for hybrid
search, at most one `i32` attribute per vector, plus an optional cached
bitmask. -/
structure HybridSearchMetadata where
  attrs : List Int
  mask : Option Bitmask
deriving Repr, DecidableEq

/-- `HybridSearchMetadata::new(attrs)`: wraps the attribute sequence, no mask. -/
def HybridSearchMetadata.new (attrs : List Int) : HybridSearchMetadata :=
  { attrs := attrs, mask := none }

/-- `HybridSearchMetadata::new_from_bitmask(&self, mask)`: zips `self.attrs`
with `mask.map` and keeps an attribute exactly when the paired mask entry
equals 1; the produced store caches the mask it was built from. -/
def HybridSearchMetadata.new_from_bitmask (self : HybridSearchMetadata)
    (mask : Bitmask) : HybridSearchMetadata :=
  { attrs :=
      (self.attrs.zip mask.map).filterMap
        (fun p => if p.2 = 1 then some p.1 else none),
    mask := some mask }

/-- `HybridSearchMetadata::len(&self)`: the current attribute count. -/
def HybridSearchMetadata.len (self : HybridSearchMetadata) : Nat :=
  self.attrs.length

/-- State-passing embedding of the method call `self.new_from_bitmask(mask)`:
the receiver is threaded through the body and handed back next to the result.
The Rust body takes `&self`, reads `self.attrs`, builds `filtered_attrs` and
constructs a fresh `HybridSearchMetadata`; it contains no assignment to any
field of `self`, so the threaded receiver leaves the call as it entered. -/
def HybridSearchMetadata.new_from_bitmask_call (self : HybridSearchMetadata)
    (mask : Bitmask) : HybridSearchMetadata × HybridSearchMetadata :=
  let filtered_attrs :=
    (self.attrs.zip mask.map).filterMap
      (fun p => if p.2 = 1 then some p.1 else none)
  ({ attrs := filtered_attrs, mask := some mask }, self)

/-- Reference function written from the spec's words (section 4.3): the
original attribute sequence "with elements at positions where mask[i] == 0
removed, preserving relative order of kept elements". Used to compare the
source's zip-and-filter against the specified behaviour. -/
def specMaskFilter : List Int → List Nat → List Int
  | a :: as, b :: bs =>
      if b = 0 then specMaskFilter as bs else a :: specMaskFilter as bs
  | _, _ => []

/-- `struct OakIndexOptions` in dataset.rs: ACORN graph-index parameters. -/
structure OakIndexOptions where
  m : Int
  gamma : Int
  m_beta : Int
deriving Repr, DecidableEq

/-- `impl Default for OakIndexOptions` in dataset.rs. -/
def OakIndexOptions.default : OakIndexOptions :=
  { gamma := 1, m := 32, m_beta := 64 }

/-- Modelled from the spec: `FlattenedVecs` (src/oak/src/fvecs.rs is not part
of the sources given) — a batch of query vectors flattened into one
dimensionality-tagged buffer; its internals are never inspected by the layer
verified here, the components are abstracted to integers. -/
structure FlattenedVecs where
  dimensionality : Nat
  data : List Int
deriving Repr, DecidableEq

/-- Modelled from the spec: `PredicateQuery` (src/oak/src/predicate.rs is not
part of the sources given) — a serializable scalar-comparison expression over
the one attribute per vector, "e.g., equality/range" (section 4.4). -/
inductive PredicateQuery where
  | eq (v : Int)
  | range (lo hi : Int)
deriving Repr, DecidableEq

/-- Modelled from the spec: whether one scalar attribute satisfies the
predicate. -/
def PredicateQuery.sat : PredicateQuery → Int → Bool
  | PredicateQuery.eq v, a => a = v
  | PredicateQuery.range lo hi, a => lo ≤ a ∧ a ≤ hi

/-- Modelled from the spec: `evaluate_predicate` (section 6) — evaluating a
PredicateQuery against a HybridSearchMetadata yields a Bitmask aligned to the
original collection, admitting exactly the vectors whose attribute satisfies
the predicate. -/
def evaluatePredicate (p : PredicateQuery) (meta : HybridSearchMetadata) :
    Bitmask :=
  { map := meta.attrs.map (fun a => if p.sat a then 1 else 0) }

/-- Modelled from the spec: the dataset state machine of section 4.6,
`Unindexed --build_index--> Indexed`. -/
inductive IndexState where
  | Unindexed
  | Indexed
deriving Repr, DecidableEq

/-- Modelled from the spec: a `Dataset` implementation (the trait in
dataset.rs has no implementation among the sources given). It owns the
attribute store and the index-build state; the opaque ANN-engine index handle
is abstracted as a function from query batch, resolved mask and cutoff to the
ranked result lists the engine returns. -/
structure ModelDataset where
  metadata : HybridSearchMetadata
  state : IndexState
  engine : FlattenedVecs → List Nat → Nat → List TopKSearchResult

/-- Modelled from the spec: `build_index` transitions the dataset to
`Indexed`; its `Result<(), ConstructionError>` error channel has no
inhabitant, so it always succeeds at this layer. -/
def ModelDataset.build_index (d : ModelDataset) (_opts : OakIndexOptions) :
    Except ConstructionError ModelDataset :=
  Except.ok { d with state := IndexState.Indexed }

/-- Modelled from the spec: `search(query_vectors, predicate_query, topk)`
(section 4.6) — requires state Indexed, else fails with the not-indexed
error; a supplied predicate is evaluated into a bitmask aligned to the
original collection, an absent one means an all-ones mask; then the engine is
invoked with the resolved mask. -/
def ModelDataset.search (d : ModelDataset) (query_vectors : FlattenedVecs)
    (predicate_query : Option PredicateQuery) (topk : Nat) :
    Except SearchableError (List TopKSearchResult) :=
  match d.state with
  | IndexState.Unindexed => Except.error SearchableError.DatasetIsNotIndexed
  | IndexState.Indexed =>
      let mask : Bitmask :=
        match predicate_query with
        | none => { map := List.replicate d.metadata.len 1 }
        | some p => evaluatePredicate p d.metadata
      Except.ok (d.engine query_vectors mask.map topk)

/-- Modelled from the spec: `search_with_bitmask(query_vectors, bitmask,
topk)` (section 4.6) — identical contract to `search` but takes the
precomputed bitmask directly, skipping predicate evaluation. -/
def ModelDataset.search_with_bitmask (d : ModelDataset)
    (query_vectors : FlattenedVecs) (bitmask : Bitmask) (topk : Nat) :
    Except SearchableError (List TopKSearchResult) :=
  match d.state with
  | IndexState.Unindexed => Except.error SearchableError.DatasetIsNotIndexed
  | IndexState.Indexed => Except.ok (d.engine query_vectors bitmask.map topk)

/-- A concrete indexed dataset used to instantiate search theorems: three
attributes and a stub engine that reports the number of mask-admitted vectors
as a result id, repeated `topk` times. -/
def sampleIndexed : ModelDataset :=
  { metadata := HybridSearchMetadata.new [3, 7, 3],
    state := IndexState.Indexed,
    engine := fun _ mask topk => [List.replicate topk (mask.count 1, (5 : Int))] }

/-- The same dataset before any `build_index` call. -/
def sampleUnindexed : ModelDataset :=
  { sampleIndexed with state := IndexState.Unindexed }

/-- A concrete query batch for instantiating search theorems. -/
def sampleQueries : FlattenedVecs :=
  { dimensionality := 1, data := [4] }

/- Helper lemmas about the zip-and-keep filtering underlying
`new_from_bitmask`. -/

theorem keep_zip_replicate_one (l : List Int) :
    ((l.zip (List.replicate l.length 1)).filterMap
      (fun p => if p.2 = 1 then some p.1 else none)) = l := by
  induction l with
  | nil => rfl
  | cons a as ih => simp [List.replicate_succ, ih]

theorem keep_zip_replicate_zero (l : List Int) :
    ((l.zip (List.replicate l.length 0)).filterMap
      (fun p => if p.2 = 1 then some p.1 else none)) = [] := by
  induction l with
  | nil => rfl
  | cons a as ih => simp [List.replicate_succ, ih]

theorem keep_zip_eq_specMaskFilter (as : List Int) (bs : List Nat)
    (hbin : ∀ b ∈ bs, b = 0 ∨ b = 1) :
    ((as.zip bs).filterMap (fun p => if p.2 = 1 then some p.1 else none))
      = specMaskFilter as bs := by
  induction as generalizing bs with
  | nil => cases bs <;> rfl
  | cons a as ih =>
    cases bs with
    | nil => rfl
    | cons b bs =>
      have hrest : ∀ x ∈ bs, x = 0 ∨ x = 1 := fun x hx => hbin x (by simp [hx])
      rcases hbin b (by simp) with h0 | h1
      · subst h0; simp [specMaskFilter, ih bs hrest]
      · subst h1; simp [specMaskFilter, ih bs hrest]

theorem keep_zip_length (as : List Int) (bs : List Nat) :
    ((as.zip bs).filterMap
      (fun p => if p.2 = 1 then some p.1 else none)).length
      = (bs.take as.length).count 1 := by
  induction as generalizing bs with
  | nil => simp
  | cons a as ih =>
    cases bs with
    | nil => simp
    | cons b bs =>
      by_cases hb : b = 1
      · subst hb; simp [List.count_cons, ih bs]
      · simp [hb, List.count_cons, ih bs, Ne.symm hb]

theorem take_min_self (bs : List Nat) (n : Nat) :
    bs.take (min n bs.length) = bs.take n := by
  rcases Nat.le_total n bs.length with h | h
  · rw [Nat.min_eq_left h]
  · rw [Nat.min_eq_right h, List.take_length, List.take_of_length_le h]

/-- C1: with a fixed already-built index, `search(D, P, k)` and
`search_with_bitmask(D, evaluate(P), k)` return identical result sets — the
same ids, the same distances, in the same order (here: equality of the full
per-query result lists). -/
theorem search_predicate_equiv_search_with_bitmask (d : ModelDataset)
    (qs : FlattenedVecs) (p : PredicateQuery) (k : Nat)
    (h : d.state = IndexState.Indexed) :
    d.search qs (some p) k
      = d.search_with_bitmask qs (evaluatePredicate p d.metadata) k := by
  simp [ModelDataset.search, ModelDataset.search_with_bitmask, h]

/-- Witness for C1 at a concrete indexed dataset, query batch, predicate and
cutoff. -/
theorem search_predicate_equiv_search_with_bitmask_witness :
    sampleIndexed.state = IndexState.Indexed ∧
    sampleIndexed.search sampleQueries (some (PredicateQuery.eq 3)) 2
      = sampleIndexed.search_with_bitmask sampleQueries
          (evaluatePredicate (PredicateQuery.eq 3) sampleIndexed.metadata) 2 :=
  ⟨rfl, search_predicate_equiv_search_with_bitmask sampleIndexed sampleQueries
    (PredicateQuery.eq 3) 2 rfl⟩

/-- C2: for a mask of the same length as the store (a Bitmask's entries being
0 or 1 per its spec invariant), `new_from_bitmask` returns a store whose
attribute sequence is the original with the elements at mask-0 positions
removed, in order (the spec's `specMaskFilter`), and the new store retains
the mask used to produce it. -/
theorem new_from_bitmask_removes_zero_positions (s : HybridSearchMetadata)
    (mask : Bitmask) (_hlen : mask.map.length = s.len)
    (hbin : ∀ b ∈ mask.map, b = 0 ∨ b = 1) :
    (s.new_from_bitmask mask).attrs = specMaskFilter s.attrs mask.map ∧
    (s.new_from_bitmask mask).mask = some mask :=
  ⟨keep_zip_eq_specMaskFilter s.attrs mask.map hbin, rfl⟩

/-- Witness for C2 at the spec's concrete example: attrs [10, 20, 30, 40, 50]
and mask [1, 0, 1, 0, 1] yield [10, 30, 50] with length 3. -/
theorem new_from_bitmask_removes_zero_positions_witness :
    (Bitmask.mk [1, 0, 1, 0, 1]).map.length
        = (HybridSearchMetadata.new [10, 20, 30, 40, 50]).len ∧
    (∀ b ∈ (Bitmask.mk [1, 0, 1, 0, 1]).map, b = 0 ∨ b = 1) ∧
    ((HybridSearchMetadata.new [10, 20, 30, 40, 50]).new_from_bitmask
        (Bitmask.mk [1, 0, 1, 0, 1])).attrs = [10, 30, 50] ∧
    ((HybridSearchMetadata.new [10, 20, 30, 40, 50]).new_from_bitmask
        (Bitmask.mk [1, 0, 1, 0, 1])).len = 3 ∧
    ((HybridSearchMetadata.new [10, 20, 30, 40, 50]).new_from_bitmask
        (Bitmask.mk [1, 0, 1, 0, 1])).mask = some (Bitmask.mk [1, 0, 1, 0, 1]) := by
  have h := new_from_bitmask_removes_zero_positions
    (HybridSearchMetadata.new [10, 20, 30, 40, 50]) (Bitmask.mk [1, 0, 1, 0, 1])
    (by decide) (by decide)
  exact ⟨by decide, by decide, h.1.trans (by decide), by decide, h.2⟩

/-- C3 counterexample: called with the length-1 mask [1] on a length-3 store,
`new_from_bitmask` does not fail with any validation error — the Rust method
returns `Self`, with no error channel at all — it produces the store
with attrs [10] (the zip silently truncated the attribute sequence). -/
theorem new_from_bitmask_mismatched_returns_store :
    (Bitmask.mk [1]).map.length ≠ (HybridSearchMetadata.new [10, 20, 30]).len ∧
    (HybridSearchMetadata.new [10, 20, 30]).new_from_bitmask (Bitmask.mk [1])
      = { attrs := [10], mask := some (Bitmask.mk [1]) } := by
  decide

/-- C3 (amended): for every store and every 0/1 mask whose length differs
from the store's attribute count, `new_from_bitmask` does not fail; it
returns a store obtained by zipping, which truncates to the shorter of the
two sequences: the attrs are the spec's positional filter (which stops at the
shorter list) and the length is the number of 1-entries among the first
`len(attrs)` mask positions. -/
theorem new_from_bitmask_mismatched_truncates (s : HybridSearchMetadata)
    (mask : Bitmask) (_hne : mask.map.length ≠ s.len)
    (hbin : ∀ b ∈ mask.map, b = 0 ∨ b = 1) :
    (s.new_from_bitmask mask).attrs = specMaskFilter s.attrs mask.map ∧
    (s.new_from_bitmask mask).len = (mask.map.take s.len).count 1 :=
  ⟨keep_zip_eq_specMaskFilter s.attrs mask.map hbin,
   keep_zip_length s.attrs mask.map⟩

/-- Witness for the amended C3 at a concrete mismatched input: attrs
[10, 20, 30] with the shorter mask [1, 0]. -/
theorem new_from_bitmask_mismatched_truncates_witness :
    (Bitmask.mk [1, 0]).map.length ≠ (HybridSearchMetadata.new [10, 20, 30]).len ∧
    (∀ b ∈ (Bitmask.mk [1, 0]).map, b = 0 ∨ b = 1) ∧
    ((HybridSearchMetadata.new [10, 20, 30]).new_from_bitmask
        (Bitmask.mk [1, 0])).attrs = [10] ∧
    ((HybridSearchMetadata.new [10, 20, 30]).new_from_bitmask
        (Bitmask.mk [1, 0])).len = 1 := by
  have h := new_from_bitmask_mismatched_truncates
    (HybridSearchMetadata.new [10, 20, 30]) (Bitmask.mk [1, 0])
    (by decide) (by decide)
  exact ⟨by decide, by decide, h.1.trans (by decide), h.2.trans (by decide)⟩

/-- C4: on a dataset still in the Unindexed state, both `search` and
`search_with_bitmask` fail with `SearchableError::DatasetIsNotIndexed`,
returning only that error (no partial work), for every query batch,
predicate option, bitmask and cutoff. -/
theorem search_unindexed_fails_not_indexed (d : ModelDataset)
    (qs : FlattenedVecs) (pq : Option PredicateQuery) (mask : Bitmask)
    (k j : Nat) (h : d.state = IndexState.Unindexed) :
    d.search qs pq k = Except.error SearchableError.DatasetIsNotIndexed ∧
    d.search_with_bitmask qs mask j
      = Except.error SearchableError.DatasetIsNotIndexed := by
  constructor <;> simp [ModelDataset.search, ModelDataset.search_with_bitmask, h]

/-- Witness for C4 on a concrete freshly constructed (unindexed) dataset. -/
theorem search_unindexed_fails_not_indexed_witness :
    sampleUnindexed.state = IndexState.Unindexed ∧
    (sampleUnindexed.search sampleQueries (some (PredicateQuery.eq 3)) 2
        = Except.error SearchableError.DatasetIsNotIndexed ∧
     sampleUnindexed.search_with_bitmask sampleQueries (Bitmask.mk [1, 1, 1]) 2
        = Except.error SearchableError.DatasetIsNotIndexed) :=
  ⟨rfl, search_unindexed_fails_not_indexed sampleUnindexed sampleQueries
    (some (PredicateQuery.eq 3)) (Bitmask.mk [1, 1, 1]) 2 2 rfl⟩

/-- C5: every foreign engine fault is converted into this layer's taxonomy as
`CppError` carrying the engine's diagnostic message as a string payload; the
conversion never yields any other variant, so the raw foreign fault type is
not observable through `SearchableError`. -/
theorem cxx_exception_wrapped_as_cpp_error (e : CxxException) :
    SearchableError.fromCxxException e = SearchableError.CppError e.message ∧
    SearchableError.fromCxxException e ≠ SearchableError.DatasetIsNotIndexed ∧
    SearchableError.fromCxxException e
      ≠ SearchableError.PredicateSerializationError :=
  ⟨rfl, by simp [SearchableError.fromCxxException], by
    simp [SearchableError.fromCxxException]⟩

/-- C6: a mask of all ones of the store's length leaves the attribute
sequence and the length unchanged, and a mask of all zeros of that length
yields a store of length 0. -/
theorem new_from_bitmask_ones_identity_zeros_empty (s : HybridSearchMetadata) :
    (s.new_from_bitmask (Bitmask.mk (List.replicate s.len 1))).attrs = s.attrs ∧
    (s.new_from_bitmask (Bitmask.mk (List.replicate s.len 1))).len = s.len ∧
    (s.new_from_bitmask (Bitmask.mk (List.replicate s.len 0))).len = 0 := by
  refine ⟨keep_zip_replicate_one s.attrs, ?_, ?_⟩
  · show ((s.attrs.zip (List.replicate s.attrs.length 1)).filterMap
      (fun p => if p.2 = 1 then some p.1 else none)).length = s.attrs.length
    rw [keep_zip_replicate_one s.attrs]
  · show ((s.attrs.zip (List.replicate s.attrs.length 0)).filterMap
      (fun p => if p.2 = 1 then some p.1 else none)).length = 0
    rw [keep_zip_replicate_zero s.attrs]
    rfl

/-- C7: `new_from_bitmask` is pure with respect to the receiver — in the
state-passing embedding of the call, the receiver comes back with its
attribute sequence, length and cached mask unchanged, and the produced value
is exactly `new_from_bitmask`'s result. -/
theorem new_from_bitmask_call_receiver_unchanged (s : HybridSearchMetadata)
    (mask : Bitmask) :
    (s.new_from_bitmask_call mask).2.attrs = s.attrs ∧
    (s.new_from_bitmask_call mask).2.len = s.len ∧
    (s.new_from_bitmask_call mask).2.mask = s.mask ∧
    (s.new_from_bitmask_call mask).1 = s.new_from_bitmask mask :=
  ⟨rfl, rfl, rfl, rfl⟩

/-- C8: the default `OakIndexOptions` supply exactly m = 32, gamma = 1 and
m_beta = 64, and all three defaults are positive. -/
theorem default_index_options_values :
    OakIndexOptions.default.m = 32 ∧
    OakIndexOptions.default.gamma = 1 ∧
    OakIndexOptions.default.m_beta = 64 ∧
    0 < OakIndexOptions.default.m ∧
    0 < OakIndexOptions.default.gamma ∧
    0 < OakIndexOptions.default.m_beta := by
  decide

/-- C9: `new_from_bitmask` never fails on a length mismatch: for every store
and every mask it produces a store whose length is the number of 1-entries
among the first min(len(attrs), len(mask)) mask positions — a shorter mask
silently drops the attributes past its length, and the extra entries of a
longer mask are silently ignored. -/
theorem new_from_bitmask_length_is_count_ones (s : HybridSearchMetadata)
    (mask : Bitmask) :
    (s.new_from_bitmask mask).len
      = (mask.map.take (min s.len mask.map.length)).count 1 ∧
    (s.new_from_bitmask mask).len = (mask.map.take s.len).count 1 := by
  constructor
  · rw [take_min_self mask.map s.len]
    exact keep_zip_length s.attrs mask.map
  · exact keep_zip_length s.attrs mask.map

/-- C10: `ConstructionError` has no variants, so no value of it exists and a
`Result<(), ConstructionError>` can never be an `Err` at this layer. -/
theorem construction_error_uninhabited :
    (∀ e : ConstructionError, False) ∧
    (∀ r : Except ConstructionError Unit, ∃ u : Unit, r = Except.ok u) := by
  constructor
  · intro e
    nomatch e
  · intro r
    cases r with
    | error e => exact (nomatch e)
    | ok u => exact ⟨u, rfl⟩

end Oak
